import Mathlib

/-!
Shallow embedding of `src/app.py` (a Telegram bot front-end for a virtual
phone-number provider) and proofs about it.

The bot keeps two in-memory dictionaries, `user_data_store` (keyed by
Telegram user id) and `purchased_numbers` (keyed by provider-assigned
number id).  Python dictionaries preserve insertion order and updating an
existing key keeps its position, so both are modelled as association
lists with an update-in-place-or-append operation.
-/

/-- Lookup in an association list; mirrors `d[k]` / `k in d` on a Python
dict (first — and only — occurrence of the key). -/
def lookupA {κ α : Type} [DecidableEq κ] (l : List (κ × α)) (k : κ) : Option α :=
  match l with
  | [] => none
  | (k', v) :: t => if k' = k then some v else lookupA t k

/-- Update-or-insert in an association list; mirrors `d[k] = v` on a
Python dict: an existing key keeps its position, a new key is appended. -/
def updateA {κ α : Type} [DecidableEq κ] (l : List (κ × α)) (k : κ) (v : α) : List (κ × α) :=
  match l with
  | [] => [(k, v)]
  | (k', v') :: t => if k' = k then (k, v) :: t else (k', v') :: updateA t k v

/-! ### Data model

`user_data_store[user_id]` is a dict whose keys `username`, `first_name`
and `join_date` are written by `start` and whose key `numbers` is written
by `purchase_for_country`; any of them may be absent, hence the `Option`
fields.  `purchased_numbers[number_id]` always carries all five fields. -/

/-- One value of `user_data_store`. -/
structure UserRecord where
  username : Option String
  first_name : Option String
  join_date : Option String
  numbers : Option (List String)
deriving DecidableEq, Repr

/-- The Python dict literal `{}` used by `purchase_for_country` when the
user has no record yet. -/
def emptyRecord : UserRecord := ⟨none, none, none, none⟩

/-- One value of `purchased_numbers`. -/
structure NumberInfo where
  user_id : Nat
  country_code : String
  phone_number : String
  purchase_date : String
  status : String
deriving DecidableEq, Repr

/-- The two module-level dictionaries of `app.py`. -/
structure BotState where
  user_data_store : List (Nat × UserRecord)
  purchased_numbers : List (String × NumberInfo)
deriving DecidableEq, Repr

/-- The empty initial state (`user_data_store = {}`, `purchased_numbers = {}`). -/
def initState : BotState := ⟨[], []⟩

/-- Result dict of a provider-client call as the handlers see it:
`result.get("success")` truthy with a typed `data` payload, or falsy with
an optional `error` text (`result.get("error", default)`). -/
inductive ApiResult (α : Type) where
  | success (data : α)
  | failure (error : Option String)
deriving DecidableEq

/-- Payload of a successful `purchase_number` call:
`data.get("number_id")` and `data.get("phone_number")`. -/
structure PurchaseData where
  number_id : String
  phone_number : String
deriving DecidableEq, Repr

/-! ### Command handlers

Each handler is a function from its inputs and the current `BotState` to
the next `BotState` and its user-visible output.  Provider responses and
the current wall-clock time are passed as explicit arguments.  UI-only
strings are kept; apostrophes and backticks appear as `\x27`/`\x60`. -/

/-- Handler for `/start` (also reached from the `main_menu` button): it
assigns a fresh dict `{username, first_name, join_date}` to
`user_data_store[user.id]`, unconditionally replacing any existing
record (including its `numbers` list), then sends the welcome text. -/
def start (uid : Nat) (uname fname jdate : String) (s : BotState) : BotState × String :=
  ({ s with
      user_data_store :=
        updateA s.user_data_store uid ⟨some uname, some fname, some jdate, none⟩ },
    "🚀 *Welcome to Virtual Number Bot, " ++ fname ++ "!*")

/-- Handler for a purchase of `country_code` (via `/purchase <code>` or a
`select_country_<code>` button).  On provider success it records the
number in `purchased_numbers` with status `"active"` and appends its id
to `user_data_store[user_id]["numbers"]`, creating the record and the
list if absent; on failure it reports the error and changes nothing. -/
def purchase_for_country (uid : Nat) (country_code now : String)
    (result : ApiResult PurchaseData) (s : BotState) : BotState × String :=
  match result with
  | .success d =>
    let pn := updateA s.purchased_numbers d.number_id
      ⟨uid, country_code, d.phone_number, now, "active"⟩
    let rec0 := (lookupA s.user_data_store uid).getD emptyRecord
    let nums := rec0.numbers.getD []
    let rec1 := { rec0 with numbers := some (nums ++ [d.number_id]) }
    ({ user_data_store := updateA s.user_data_store uid rec1, purchased_numbers := pn },
      "✅ *Number Purchased Successfully!*\n\n📱 *Number:* " ++ d.phone_number ++
        "\n🌍 *Country:* " ++ country_code ++ "\n🆔 *ID:* " ++ d.number_id)
  | .failure e => (s, "❌ Purchase failed: " ++ e.getD "Purchase failed")

/-- Does `number_id in user_data_store[user_id]["numbers"]` hold, with
missing record or missing `numbers` key counting as `false`?  This is the
ownership test of `cancel_number_command`. -/
def ownsNumberB (s : BotState) (uid : Nat) (nid : String) : Bool :=
  match lookupA s.user_data_store uid with
  | none => false
  | some r =>
    match r.numbers with
    | none => false
    | some ns => ns.contains nid

/-- Success message of `/cancel`. -/
def cancelSuccessMsg (nid : String) : String :=
  "✅ Number " ++ nid ++ " cancelled successfully."

/-- Conflated error message of `/cancel` for an id missing from the
caller\x27s own list (whether unknown or owned by someone else). -/
def notFoundOrNotYoursMsg : String := "❌ Number not found or doesn\x27t belong to you."

/-- Error message of `/cancel` for an id in the caller\x27s list but absent
from `purchased_numbers`. -/
def notFoundMsg : String := "❌ Number not found."

/-- Handler for `/cancel <number_id>`.  It checks that the id is in the
caller\x27s own `numbers` list, then that it is in `purchased_numbers`,
then calls the provider; on provider success it sets the registry status
to `"cancelled"`.  Neither the registry\x27s recorded `user_id` nor the
current `status` is consulted. -/
def cancel_number_command (uid : Nat) (args : List String)
    (api : ApiResult Unit) (s : BotState) : BotState × String :=
  match args with
  | [] => (s, "Usage: /cancel <number_id>")
  | nid :: _ =>
    if ownsNumberB s uid nid = false then
      (s, notFoundOrNotYoursMsg)
    else
      match lookupA s.purchased_numbers nid with
      | none => (s, notFoundMsg)
      | some info =>
        match api with
        | .success _ =>
          ({ s with purchased_numbers :=
              updateA s.purchased_numbers nid { info with status := "cancelled" } },
            cancelSuccessMsg nid)
        | .failure e => (s, "❌ Cancellation failed: " ++ e.getD "Cancellation failed")

/-! ### Country listing pagination -/

/-- One entry of the provider country listing, as read by the handler
(`country.get("country_code")` and friends). -/
structure Country where
  country_code : String
  country_name : String
  emoji : String
  price : String
deriving DecidableEq, Repr

/-- The inline-keyboard button built for one country:
`(label, callback_data)`. -/
def countryButton (c : Country) : String × String :=
  (c.emoji ++ " " ++ c.country_name ++ " - $" ++ c.price,
    "select_country_" ++ c.country_code)

/-- Rendered result of `show_countries_page`: the country buttons of the
page, in order, and whether the Previous / Next navigation buttons are
present. -/
structure PageRender where
  buttons : List (String × String)
  hasPrev : Bool
  hasNext : Bool
deriving DecidableEq, Repr

/-- Handler rendering page `page` of the cached country listing:
`countries[page*10 : page*10+10]` become country buttons; a Previous
button is added when `page > 0` and a Next button when
`page*10+10 < len(countries)`. -/
def show_countries_page (countries : List Country) (page : Nat) : PageRender :=
  let items_per_page := 10
  let start_idx := page * items_per_page
  let end_idx := start_idx + items_per_page
  let current_countries := (countries.drop start_idx).take items_per_page
  { buttons := current_countries.map countryButton
    hasPrev := decide (0 < page)
    hasNext := decide (end_idx < countries.length) }

/-! ### mysms and active -/

/-- Output of `my_sms_command`: the text sent and the inline-keyboard
buttons `(label, callback_data)` attached to it. -/
def my_sms_render (uid : Nat) (s : BotState) : String × List (String × String) :=
  match (lookupA s.user_data_store uid).bind UserRecord.numbers with
  | none => ("📭 You don\x27t have any active numbers.", [])
  | some user_numbers =>
    if user_numbers.isEmpty then ("📭 You don\x27t have any active numbers.", [])
    else
      let keyboard := (user_numbers.take 5).filterMap (fun nid =>
        (lookupA s.purchased_numbers nid).map
          (fun info => ("📱 " ++ info.phone_number, "view_sms_" ++ nid)))
      if keyboard.isEmpty then ("📭 No active numbers found.", [])
      else
        ("📨 *My SMS Messages*\n\nSelect a number to view received SMS:",
          keyboard ++ [("🔄 Refresh", "refresh_sms"), ("🏠 Main Menu", "main_menu")])

/-- Handler for `/mysms`: reads the stores, never writes them. -/
def my_sms_command (uid : Nat) (s : BotState) :
    BotState × (String × List (String × String)) :=
  (s, my_sms_render uid s)

/-- One rendered block of `/active` output.  `shownId` is whatever the
Python variable `number_id` holds when the rendering loop runs — the
source interpolates that leaked loop variable, not an id taken from
`num`. -/
def activeEntry (num : NumberInfo) (shownId : String) : String :=
  "• *Number:* " ++ num.phone_number ++ "\n" ++
    "  *Country:* " ++ num.country_code ++ "\n" ++
    "  *ID:* \x60" ++ shownId ++ "\x60\n" ++
    "  *Since:* " ++ num.purchase_date.take 10 ++ "\n\n"

/-- Output text of `active_numbers_command`.  The first loop collects
`purchased_numbers[nid]` for each owned `nid` with status `"active"`,
leaving the Python loop variable `number_id` equal to the last element
of the owned list; the second loop renders each collected entry,
interpolating that leaked `number_id` as the displayed ID. -/
def active_render (uid : Nat) (s : BotState) : String :=
  match (lookupA s.user_data_store uid).bind UserRecord.numbers with
  | none => "📱 You don\x27t have any active numbers."
  | some user_numbers =>
    let active_numbers := user_numbers.filterMap (fun nid =>
      match lookupA s.purchased_numbers nid with
      | some info => if info.status = "active" then some info else none
      | none => none)
    if active_numbers.isEmpty then "📱 You don\x27t have any active numbers."
    else
      let number_id := user_numbers.getLastD ""
      active_numbers.foldl (fun acc num => acc ++ activeEntry num number_id)
          "📱 *Your Active Numbers*\n\n"
        ++ "Use /cancel <number_id> to cancel a number."

/-- Handler for `/active`: reads the stores, never writes them. -/
def active_numbers_command (uid : Nat) (s : BotState) : BotState × String :=
  (s, active_render uid s)

/-! ### Poll loop -/

/-- One SMS as returned by the provider. -/
structure Sms where
  sender : String
  message : String
  timestamp : String
deriving DecidableEq, Repr

/-- The scheduled job `check_sms_scheduler` (fired every minute): it
walks `purchased_numbers.items()`, calls `get_sms` for every entry whose
status is `"active"` (the per-number provider response is the `responses`
argument), and then does nothing with the result — the loop body that
would diff and forward messages is `pass`.  The returned list records,
in order, the number-ids for which `get_sms` was called. -/
def check_sms_scheduler (responses : String → ApiResult (List Sms)) (s : BotState) :
    BotState × List String :=
  let fetched := s.purchased_numbers.foldl (fun acc p =>
    if p.2.status = "active" then
      match responses p.1 with
      | .success _ => acc ++ [p.1]
      | .failure _ => acc ++ [p.1]
    else acc) []
  (s, fetched)

/-! ### Provider client (`VirtualNumberAPI`)

Transport-level model.  A single HTTP request either raises a
`requests.exceptions.RequestException` carrying an error text or yields a
response with a status code and a (parsed) body.  The provider is a
stream of such outcomes indexed by how many requests were made so far,
plus a log of the endpoints hit; issuing a request consumes the next
outcome and appends to the log, so the log growth measures exactly how
many attempts a call makes. -/

/-- Outcome of one HTTP request. -/
inductive HttpOutcome (β : Type) where
  | exc (msg : String)
  | resp (status : Nat) (body : β)
deriving DecidableEq

/-- The five endpoints of `VirtualNumberAPI`, with the request data the
methods put in the URL or JSON payload. -/
inductive Endpoint where
  | allCountries
  | purchase (country_code service : String)
  | sms (number_id : String)
  | activeNumbers
  | cancel (number_id : String)
deriving DecidableEq, Repr

/-- The external HTTP world plus the request history. -/
structure Provider (β : Type) where
  stream : Nat → HttpOutcome β
  calls : Nat
  log : List Endpoint

/-- What a `VirtualNumberAPI` method returns: the parsed response body,
or the dict `{success: False, error: str(e)}` built in its `except`
clause. -/
inductive ApiReturn (β : Type) where
  | success (body : β)
  | failure (error : String)
deriving DecidableEq

/-- Text of the `requests.exceptions.HTTPError` raised by
`response.raise_for_status()` for an error status code. -/
def httpErrorText (status : Nat) : String :=
  "HTTP error " ++ toString status

/-- Issue one HTTP request: consume the next outcome of the stream and
log the endpoint. -/
def rawRequest {β : Type} (ep : Endpoint) (p : Provider β) : HttpOutcome β × Provider β :=
  (p.stream p.calls, { p with calls := p.calls + 1, log := p.log ++ [ep] })

/-- Common shape of all five `VirtualNumberAPI` methods: one `try` block
issuing a single request, `response.raise_for_status()` (which raises
exactly for status codes in `[400, 600)`), then `return response.json()`;
the `except requests.exceptions.RequestException` clause returns
`{success: False, error: str(e)}`. -/
def apiCall {β : Type} (ep : Endpoint) (p : Provider β) : ApiReturn β × Provider β :=
  let r := rawRequest ep p
  match r.1 with
  | .exc e => (.failure e, r.2)
  | .resp status body =>
    if 400 ≤ status ∧ status < 600 then (.failure (httpErrorText status), r.2)
    else (.success body, r.2)

/-- `VirtualNumberAPI.get_all_countries`. -/
def get_all_countries {β : Type} (p : Provider β) : ApiReturn β × Provider β :=
  apiCall .allCountries p

/-- `VirtualNumberAPI.purchase_number` (the source defaults `service` to
`"telegram"`; it is passed explicitly here). -/
def purchase_number {β : Type} (country_code service : String) (p : Provider β) :
    ApiReturn β × Provider β :=
  apiCall (.purchase country_code service) p

/-- `VirtualNumberAPI.get_sms`. -/
def get_sms {β : Type} (number_id : String) (p : Provider β) : ApiReturn β × Provider β :=
  apiCall (.sms number_id) p

/-- `VirtualNumberAPI.get_active_numbers`. -/
def get_active_numbers {β : Type} (p : Provider β) : ApiReturn β × Provider β :=
  apiCall .activeNumbers p

/-- `VirtualNumberAPI.cancel_number`. -/
def cancel_number {β : Type} (number_id : String) (p : Provider β) : ApiReturn β × Provider β :=
  apiCall (.cancel number_id) p

/-! ### Traces of bot operations -/

/-- One inbound event, with the external data (provider response, clock)
it is handled with. -/
inductive Op where
  | start (uid : Nat) (uname fname jdate : String)
  | purchase (uid : Nat) (country_code now : String) (result : ApiResult PurchaseData)
  | cancel (uid : Nat) (args : List String) (api : ApiResult Unit)
  | mysms (uid : Nat)
  | active (uid : Nat)
  | poll (responses : String → ApiResult (List Sms))
  | helpCmd

/-- State effect of one event. -/
def step (op : Op) (s : BotState) : BotState :=
  match op with
  | .start uid un fn jd => (start uid un fn jd s).1
  | .purchase uid cc now result => (purchase_for_country uid cc now result s).1
  | .cancel uid args api => (cancel_number_command uid args api s).1
  | .mysms uid => (my_sms_command uid s).1
  | .active uid => (active_numbers_command uid s).1
  | .poll responses => (check_sms_scheduler responses s).1
  | .helpCmd => s

/-- State after a sequence of events. -/
def run (ops : List Op) (s : BotState) : BotState :=
  ops.foldl (fun st op => step op st) s

/-- Recorded owner of a number id, read from the registry. -/
def ownerOf (s : BotState) (nid : String) : Option Nat :=
  (lookupA s.purchased_numbers nid).map NumberInfo.user_id

/-- Users whose owned-numbers list contains `nid` (in store order). -/
def listsContaining (s : BotState) (nid : String) : List Nat :=
  (s.user_data_store.filter (fun p => (p.2.numbers.getD []).contains nid)).map Prod.fst

/-- Does this event run the purchase handler with a successful provider
response carrying number id `nid`?  Only such events write the registry
entry of `nid` wholesale. -/
def touches (op : Op) (nid : String) : Bool :=
  match op with
  | .purchase _ _ _ (.success d) => d.number_id == nid
  | _ => false

/-! ### Specification predicate for the provider client -/

/-- What one `VirtualNumberAPI` method call `r` issued from provider
state `p` must satisfy: exactly one request is made (to the right
endpoint), the outcome stream is untouched, a transport exception is
returned as a tagged failure carrying its text, an HTTP error status
(the ones `raise_for_status` raises for) is returned as a tagged failure
carrying the error text, and otherwise the parsed body is returned. -/
def opSpec {β : Type} (p : Provider β) (ep : Endpoint) (r : ApiReturn β × Provider β) : Prop :=
  r.2.calls = p.calls + 1 ∧
  r.2.log = p.log ++ [ep] ∧
  r.2.stream = p.stream ∧
  (∀ e : String, p.stream p.calls = HttpOutcome.exc e → r.1 = ApiReturn.failure e) ∧
  (∀ (st : Nat) (b : β), p.stream p.calls = HttpOutcome.resp st b → 400 ≤ st → st < 600 →
    r.1 = ApiReturn.failure (httpErrorText st)) ∧
  (∀ (st : Nat) (b : β), p.stream p.calls = HttpOutcome.resp st b → st < 400 ∨ 600 ≤ st →
    r.1 = ApiReturn.success b)

/-! ### Concrete states and traces used by counterexamples and witnesses -/

/-- A state where user 1 owns number `123` (already cancelled, recorded
owner 1) and also has `456` in their list although its recorded owner is
user 2 and it is still active. -/
def stTwoOwned : BotState :=
  ⟨[(1, ⟨some "carol", some "Carol", some "2024-01-01T00:00:00", some ["123", "456"]⟩),
    (2, ⟨none, none, none, some ["456"]⟩)],
   [("123", ⟨1, "US", "+15551234", "2024-01-01T00:00:00", "cancelled"⟩),
    ("456", ⟨2, "GB", "+447700900123", "2024-01-02T00:00:00", "active"⟩)]⟩

/-- A state where number `123` exists but belongs to user 2, and user 1
owns nothing; `999` is registered nowhere. -/
def stForeign : BotState :=
  ⟨[(1, ⟨some "dave", some "Dave", some "2024-01-01T00:00:00", some []⟩),
    (2, ⟨none, none, none, some ["123"]⟩)],
   [("123", ⟨2, "US", "+15557777", "2024-01-01T00:00:00", "active"⟩)]⟩

/-- A state where user 1 owns `111` (active) and `222` (cancelled), in
that order. -/
def stActivePair : BotState :=
  ⟨[(1, ⟨some "bob", some "Bob", some "2024-01-01T00:00:00", some ["111", "222"]⟩)],
   [("111", ⟨1, "US", "+15550001", "2024-01-01T00:00:00", "active"⟩),
    ("222", ⟨1, "GB", "+447700900", "2024-01-02T00:00:00", "cancelled"⟩)]⟩

/-- A successful purchase by user 1 followed by user 1 pressing `/start`. -/
def opsOrphan : List Op :=
  [Op.purchase 1 "US" "2024-01-01T00:00:00" (ApiResult.success ⟨"123", "+15551234"⟩),
   Op.start 1 "alice" "Alice" "2024-01-02T00:00:00"]

/-- The state right after a successful purchase of `123` by user 1 from
the empty state. -/
def sAfterPurchase : BotState :=
  run [Op.purchase 1 "US" "2024-01-01T00:00:00" (ApiResult.success ⟨"123", "+15551234"⟩)] initState

/-- Two successful purchases, by users 1 and 2, for which the provider
hands out the same number id `123`. -/
def opsDupId : List Op :=
  [Op.purchase 1 "US" "2024-01-01T00:00:00" (ApiResult.success ⟨"123", "+15551234"⟩),
   Op.purchase 2 "GB" "2024-01-02T00:00:00" (ApiResult.success ⟨"123", "+447700900123"⟩)]

/-- A state where `123` is registered to user 1 and in user 1\x27s list. -/
def stOwner7 : BotState :=
  ⟨[(1, ⟨some "amy", some "Amy", some "2024-01-01T00:00:00", some ["123"]⟩)],
   [("123", ⟨1, "US", "+15551234", "2024-01-01T00:00:00", "active"⟩)]⟩

/-- Events that never run a purchase for id `123`. -/
def opsPreserve7 : List Op :=
  [Op.start 2 "ben" "Ben" "2024-01-03T00:00:00",
   Op.cancel 1 ["123"] (ApiResult.success ()),
   Op.mysms 1, Op.active 1, Op.helpCmd]

/-- A twelve-entry country listing (two pages, second one short). -/
def csTwelve : List Country :=
  List.replicate 12 ⟨"US", "United States", "🇺🇸", "1.00"⟩

/-- A provider whose next request raises a transport timeout. -/
def pTimeout : Provider Nat :=
  ⟨fun _ => HttpOutcome.exc "timeout", 0, []⟩

/-- Poll-loop provider responses: every number has no messages. -/
def respEmpty : String → ApiResult (List Sms) :=
  fun _ => ApiResult.success []

/-! ### Association-list lemmas -/

@[simp]
theorem lookupA_updateA_self {κ α : Type} [DecidableEq κ] (l : List (κ × α)) (k : κ) (v : α) :
    lookupA (updateA l k v) k = some v := by
  induction l with
  | nil => simp [lookupA, updateA]
  | cons h t ih =>
    obtain ⟨k', v'⟩ := h
    by_cases hk : k' = k
    · simp [lookupA, updateA, hk]
    · simp [lookupA, updateA, hk, ih]

theorem lookupA_updateA_ne {κ α : Type} [DecidableEq κ] (l : List (κ × α)) (k k' : κ) (v : α)
    (h : k' ≠ k) : lookupA (updateA l k v) k' = lookupA l k' := by
  induction l with
  | nil => simp [lookupA, updateA, Ne.symm h]
  | cons hd t ih =>
    obtain ⟨k0, v0⟩ := hd
    by_cases hk : k0 = k
    · subst hk
      simp [lookupA, updateA, Ne.symm h]
    · simp only [updateA, if_neg hk, lookupA, ih]

/-! ### C1: cancel success condition -/

/-- C1 counterexample: the claim says cancel succeeds only when the
recorded owner is the caller and the status is still active.  In
`stTwoOwned`, number `123` is already cancelled and number `456` is
recorded to user 2, yet user 1\x27s cancel of either succeeds when the
provider accepts, because the handler checks neither the status nor the
registry\x27s `user_id`. -/
theorem cancel_claim_counterexample :
    ((lookupA stTwoOwned.purchased_numbers "123").map NumberInfo.status = some "cancelled"
      ∧ (cancel_number_command 1 ["123"] (ApiResult.success ()) stTwoOwned).2 =
          cancelSuccessMsg "123")
  ∧ ((lookupA stTwoOwned.purchased_numbers "456").map NumberInfo.user_id = some 2
      ∧ ownsNumberB stTwoOwned 1 "456" = true
      ∧ (cancel_number_command 1 ["456"] (ApiResult.success ()) stTwoOwned).2 =
          cancelSuccessMsg "456") := by
  decide

/-- C1 (amended): `cancel <id>` reports the conflated not-found message
and leaves the state unchanged when the id is not in the caller\x27s own
list; reports the plain not-found message and leaves the state unchanged
when it is in the list but not in the registry; and otherwise succeeds
or fails exactly as the provider call does — on provider success the
registry status is set to cancelled, on provider failure the state is
unchanged.  Recorded owner and current status are never consulted. -/
theorem cancel_characterization (uid : Nat) (nid : String) (s : BotState) :
    (∀ api : ApiResult Unit, ownsNumberB s uid nid = false →
      cancel_number_command uid [nid] api s = (s, notFoundOrNotYoursMsg))
  ∧ (∀ api : ApiResult Unit, ownsNumberB s uid nid = true →
      lookupA s.purchased_numbers nid = none →
      cancel_number_command uid [nid] api s = (s, notFoundMsg))
  ∧ (∀ info : NumberInfo, ownsNumberB s uid nid = true →
      lookupA s.purchased_numbers nid = some info →
      cancel_number_command uid [nid] (ApiResult.success ()) s =
        ({ s with purchased_numbers :=
            updateA s.purchased_numbers nid { info with status := "cancelled" } },
          cancelSuccessMsg nid))
  ∧ (∀ (info : NumberInfo) (e : Option String), ownsNumberB s uid nid = true →
      lookupA s.purchased_numbers nid = some info →
      cancel_number_command uid [nid] (ApiResult.failure e) s =
        (s, "❌ Cancellation failed: " ++ e.getD "Cancellation failed")) := by
  refine ⟨?_, ?_, ?_, ?_⟩
  · intro api h
    simp [cancel_number_command, h]
  · intro api h hl
    simp [cancel_number_command, h, hl]
  · intro info h hl
    simp [cancel_number_command, h, hl]
  · intro info e h hl
    simp [cancel_number_command, h, hl]

/-- C1 witness: a concrete successful cancel, with both hypotheses
checked by evaluation. -/
theorem cancel_characterization_witness :
    cancel_number_command 1 ["456"] (ApiResult.success ()) stTwoOwned =
      ({ stTwoOwned with
          purchased_numbers := updateA stTwoOwned.purchased_numbers "456"
            ⟨2, "GB", "+447700900123", "2024-01-02T00:00:00", "cancelled"⟩ },
        cancelSuccessMsg "456") :=
  (cancel_characterization 1 "456" stTwoOwned).2.2.1
    ⟨2, "GB", "+447700900123", "2024-01-02T00:00:00", "active"⟩ (by decide) (by decide)

/-! ### C4: the two cancel error messages -/

/-- C4 counterexample: a cancel of an id that exists but belongs to
another user produces exactly the same message as a cancel of an id that
is registered nowhere, so the two error cases are not distinct. -/
theorem cancel_errors_conflated_counterexample :
    (lookupA stForeign.purchased_numbers "123").map NumberInfo.user_id = some 2
  ∧ ownsNumberB stForeign 1 "123" = false
  ∧ lookupA stForeign.purchased_numbers "999" = none
  ∧ (cancel_number_command 1 ["123"] (ApiResult.success ()) stForeign).2 =
      (cancel_number_command 1 ["999"] (ApiResult.success ()) stForeign).2 := by
  decide

/-- C4 (amended): whenever the id is missing from the caller\x27s own
list — which covers both the unknown-id case and the owned-by-someone-
else case — cancel fails with the single conflated message; no separate
not-yours message exists. -/
theorem cancel_not_owned_conflated (uid : Nat) (nid : String) (api : ApiResult Unit)
    (s : BotState) (h : ownsNumberB s uid nid = false) :
    cancel_number_command uid [nid] api s = (s, notFoundOrNotYoursMsg) := by
  simp [cancel_number_command, h]

/-- C4 witness: hypothesis checked by evaluation at a concrete state. -/
theorem cancel_not_owned_conflated_witness :
    ownsNumberB stForeign 1 "999" = false
  ∧ cancel_number_command 1 ["999"] (ApiResult.success ()) stForeign =
      (stForeign, notFoundOrNotYoursMsg) :=
  ⟨by decide, cancel_not_owned_conflated 1 "999" (ApiResult.success ()) stForeign (by decide)⟩

/-! ### C2 and C3: the `/start` overwrite -/

/-- C2 is violated by the code: after a successful purchase of `123` by
user 1, a `/start` by the same user replaces the whole user record, so
`123` stays in the registry (recorded owner 1) while no user\x27s
owned-numbers list contains it. -/
theorem registry_orphaned_by_start :
    (lookupA (run opsOrphan initState).purchased_numbers "123").map NumberInfo.user_id = some 1
  ∧ listsContaining (run opsOrphan initState) "123" = [] := by
  decide

/-- C3 is violated by the code: the `/start` handler assigns a fresh
dict to the user\x27s record, so an operation other than purchase removes
the previously appended number id `123` from the owned-numbers list
(the `numbers` key disappears altogether). -/
theorem owned_list_replaced_by_start :
    ((lookupA sAfterPurchase.user_data_store 1).bind UserRecord.numbers = some ["123"])
  ∧ ((lookupA (step (Op.start 1 "alice" "Alice" "2024-01-02T00:00:00")
        sAfterPurchase).user_data_store 1).bind UserRecord.numbers = none) := by
  decide

/-! ### C9: the `/active` rendering -/

/-- C9 is violated by the code: in `stActivePair` the only active number
of user 1 is `111`, but its rendered block shows the id `222` — the
Python loop variable `number_id` left over from the collection loop,
here the id of a different, cancelled number. -/
theorem active_renders_leaked_id :
    lookupA stActivePair.purchased_numbers "111" =
      some ⟨1, "US", "+15550001", "2024-01-01T00:00:00", "active"⟩
  ∧ (lookupA stActivePair.purchased_numbers "222").map NumberInfo.status = some "cancelled"
  ∧ active_render 1 stActivePair =
      "📱 *Your Active Numbers*\n\n"
        ++ activeEntry ⟨1, "US", "+15550001", "2024-01-01T00:00:00", "active"⟩ "222"
        ++ "Use /cancel <number_id> to cancel a number." := by
  decide

/-! ### C8: `/active` and `/mysms` are read-only and repeatable -/

/-- C8: neither `/active` nor `/mysms` writes the registry or the user
store, and an immediate second invocation by the same user returns the
identical output. -/
theorem active_mysms_idempotent (uid : Nat) (s : BotState) :
    (active_numbers_command uid s).1 = s
  ∧ (my_sms_command uid s).1 = s
  ∧ (active_numbers_command uid (active_numbers_command uid s).1).2 =
      (active_numbers_command uid s).2
  ∧ (my_sms_command uid (my_sms_command uid s).1).2 = (my_sms_command uid s).2 :=
  ⟨rfl, rfl, rfl, rfl⟩

/-- C8 witness: the same facts at a concrete user and state. -/
theorem active_mysms_idempotent_witness :
    (active_numbers_command 1 stActivePair).1 = stActivePair
  ∧ (my_sms_command 1 stActivePair).1 = stActivePair
  ∧ (active_numbers_command 1 (active_numbers_command 1 stActivePair).1).2 =
      (active_numbers_command 1 stActivePair).2
  ∧ (my_sms_command 1 (my_sms_command 1 stActivePair).1).2 =
      (my_sms_command 1 stActivePair).2 :=
  active_mysms_idempotent 1 stActivePair

/-! ### C5: pagination -/

/-- C5: page `k` of a cached listing of `N` countries renders exactly
the buttons of the countries with indices in `[10k, min(10(k+1), N))`,
in order; Previous is shown iff `k > 0` and Next iff `10(k+1) < N`. -/
theorem show_countries_page_spec (countries : List Country) (page : Nat) :
    (∀ j : Nat, (show_countries_page countries page).buttons[j]? =
      if j < 10 then (countries[10 * page + j]?).map countryButton else none)
  ∧ ((show_countries_page countries page).hasPrev = true ↔ 0 < page)
  ∧ ((show_countries_page countries page).hasNext = true ↔
      10 * (page + 1) < countries.length) := by
  refine ⟨?_, ?_, ?_⟩
  · intro j
    by_cases hj : j < 10
    · simp [show_countries_page, List.getElem?_map, List.getElem?_take,
        List.getElem?_drop, hj, Nat.mul_comm]
    · simp [show_countries_page, List.getElem?_map, List.getElem?_take, hj]
  · simp [show_countries_page]
  · simp only [show_countries_page, decide_eq_true_eq]
    omega

/-- C5 witness: first button of page 1 of a twelve-country listing. -/
theorem show_countries_page_spec_witness :
    (show_countries_page csTwelve 1).buttons[0]? =
      (if 0 < 10 then (csTwelve[10 * 1 + 0]?).map countryButton else none) :=
  (show_countries_page_spec csTwelve 1).1 0

/-! ### C7: ownership over traces -/

/-- Helper: an event that is not a successful purchase carrying `nid`
leaves the recorded owner of `nid` unchanged (a successful cancel
rewrites only the status field, keeping `user_id`). -/
theorem ownerOf_step_untouched (op : Op) (s : BotState) (nid : String)
    (h : touches op nid = false) : ownerOf (step op s) nid = ownerOf s nid := by
  cases op with
  | start uid un fn jd => rfl
  | purchase uid cc now result =>
    cases result with
    | success d =>
      have hne : nid ≠ d.number_id := by
        simp only [touches, beq_eq_false_iff_ne, ne_eq] at h
        exact fun hh => h hh.symm
      simp [step, purchase_for_country, ownerOf, lookupA_updateA_ne _ _ _ _ hne]
    | failure e => rfl
  | cancel uid args api =>
    cases args with
    | nil => rfl
    | cons nid' rest =>
      simp only [step, cancel_number_command]
      by_cases hown : ownsNumberB s uid nid' = false
      · simp [hown]
      · rw [if_neg hown]
        cases hl : lookupA s.purchased_numbers nid' with
        | none => rfl
        | some info =>
          cases api with
          | failure e => rfl
          | success u =>
            by_cases hnn : nid = nid'
            · subst hnn
              simp [ownerOf, lookupA_updateA_self, hl]
            · simp [ownerOf, lookupA_updateA_ne _ _ _ _ hnn]
  | mysms uid => rfl
  | active uid => rfl
  | poll responses => rfl
  | helpCmd => rfl

/-- Helper: over a whole trace none of whose events is a successful
purchase carrying `nid`, the recorded owner of `nid` is unchanged. -/
theorem ownerOf_run_untouched (ops : List Op) (nid : String) :
    ∀ s : BotState, ops.all (fun op => !touches op nid) = true →
      ownerOf (run ops s) nid = ownerOf s nid := by
  induction ops with
  | nil => intro s _; rfl
  | cons op t ih =>
    intro s hall
    rw [List.all_cons, Bool.and_eq_true] at hall
    have h1 : touches op nid = false := by
      have := hall.1
      simpa using this
    have : run (op :: t) s = run t (step op s) := rfl
    rw [this, ih (step op s) hall.2, ownerOf_step_untouched op s nid h1]

/-- C7 (amended): a successful purchase records the purchasing user as
the owner of the returned number id, and the owner then stays unchanged
under any sequence of events — cancels, menu commands, poll firings and
other purchases — as long as no later successful purchase returns that
same number id again (a duplicate id from the provider overwrites the
entry, see the counterexample). -/
theorem purchase_owner_immutable :
    (∀ (uid : Nat) (cc now : String) (d : PurchaseData) (s : BotState),
      ownerOf (step (Op.purchase uid cc now (ApiResult.success d)) s) d.number_id = some uid)
  ∧ (∀ (ops : List Op) (nid : String) (u : Nat) (s : BotState),
      ownerOf s nid = some u → ops.all (fun op => !touches op nid) = true →
      ownerOf (run ops s) nid = some u) := by
  constructor
  · intro uid cc now d s
    simp [step, purchase_for_country, ownerOf, lookupA_updateA_self]
  · intro ops nid u s h hall
    rw [ownerOf_run_untouched ops nid s hall, h]

/-- C7 counterexample: if a later successful purchase by user 2 returns
the same id `123` that user 1\x27s purchase created, the registry entry is
overwritten and the recorded owner changes from 1 to 2. -/
theorem owner_overwritten_by_duplicate_id :
    ownerOf (run [Op.purchase 1 "US" "2024-01-01T00:00:00"
        (ApiResult.success ⟨"123", "+15551234"⟩)] initState) "123" = some 1
  ∧ ownerOf (run opsDupId initState) "123" = some 2 := by
  decide

/-- C7 witness: both hypotheses checked by evaluation on a concrete
state and a concrete purchase-free trace. -/
theorem purchase_owner_immutable_witness :
    ownerOf (run opsPreserve7 stOwner7) "123" = some 1 :=
  purchase_owner_immutable.2 opsPreserve7 "123" 1 stOwner7 (by decide) (by decide)

/-! ### C10: the poll loop -/

/-- Helper: the poll-loop fold collects, in order, exactly the ids of
the entries with status active, whatever the per-number responses are. -/
theorem poll_foldl (responses : String → ApiResult (List Sms))
    (l : List (String × NumberInfo)) :
    ∀ acc : List String,
      l.foldl (fun acc p =>
        if p.2.status = "active" then
          match responses p.1 with
          | .success _ => acc ++ [p.1]
          | .failure _ => acc ++ [p.1]
        else acc) acc
      = acc ++ (l.filter (fun p => decide (p.2.status = "active"))).map Prod.fst := by
  induction l with
  | nil => intro acc; simp
  | cons hd t ih =>
    intro acc
    by_cases hs : hd.2.status = "active"
    · cases hr : responses hd.1 <;>
        simp [List.foldl_cons, List.filter_cons, hs, hr, ih]
    · simp [List.foldl_cons, List.filter_cons, hs, ih]

/-- C10: one firing of the scheduled SMS check calls `get_sms` exactly
for the registered numbers whose status is active (cancelled ones are
skipped), and leaves both stores — hence every user record — unchanged;
the forwarding loop body is a no-op. -/
theorem check_sms_scheduler_spec (responses : String → ApiResult (List Sms)) (s : BotState) :
    (check_sms_scheduler responses s).1 = s
  ∧ (check_sms_scheduler responses s).2 =
      (s.purchased_numbers.filter (fun p => decide (p.2.status = "active"))).map Prod.fst := by
  refine ⟨rfl, ?_⟩
  simp [check_sms_scheduler, poll_foldl]

/-- C10 witness: the same facts at a concrete state with one active and
one cancelled number. -/
theorem check_sms_scheduler_spec_witness :
    (check_sms_scheduler respEmpty stActivePair).1 = stActivePair
  ∧ (check_sms_scheduler respEmpty stActivePair).2 =
      (stActivePair.purchased_numbers.filter
        (fun p => decide (p.2.status = "active"))).map Prod.fst :=
  check_sms_scheduler_spec respEmpty stActivePair

/-! ### C6: the provider client -/

/-- Helper: every `VirtualNumberAPI` method is one `apiCall`, and one
`apiCall` satisfies `opSpec`. -/
theorem apiCall_opSpec {β : Type} (ep : Endpoint) (p : Provider β) :
    opSpec p ep (apiCall ep p) := by
  have hc : (apiCall ep p).2 = { p with calls := p.calls + 1, log := p.log ++ [ep] } := by
    simp only [apiCall, rawRequest]
    cases p.stream p.calls with
    | exc e => rfl
    | resp st b =>
      by_cases h4 : 400 ≤ st ∧ st < 600
      · simp [h4]
      · simp [h4]
  refine ⟨by rw [hc], by rw [hc], by rw [hc], ?_, ?_, ?_⟩
  · intro e he
    simp [apiCall, rawRequest, he]
  · intro st b hb h1 h2
    simp [apiCall, rawRequest, hb, h1, h2]
  · intro st b hb hor
    have h4 : ¬(400 ≤ st ∧ st < 600) := by omega
    simp [apiCall, rawRequest, hb, h4]

/-- C6: each of the five provider-client operations makes exactly one
request (to its own endpoint), never propagates an exception — a
transport exception comes back as a tagged failure carrying its text, an
HTTP error status as a tagged failure carrying the error text — and on
success returns the parsed response body. -/
theorem provider_client_spec (β : Type) (p : Provider β) (cc svc nid anid : String) :
    opSpec p Endpoint.allCountries (get_all_countries p)
  ∧ opSpec p (Endpoint.purchase cc svc) (purchase_number cc svc p)
  ∧ opSpec p (Endpoint.sms nid) (get_sms nid p)
  ∧ opSpec p Endpoint.activeNumbers (get_active_numbers p)
  ∧ opSpec p (Endpoint.cancel anid) (cancel_number anid p) :=
  ⟨apiCall_opSpec _ p, apiCall_opSpec _ p, apiCall_opSpec _ p,
    apiCall_opSpec _ p, apiCall_opSpec _ p⟩

/-- C6 witness: a country-listing call against a provider whose next
request times out returns the tagged failure and logs one request. -/
theorem provider_client_spec_witness :
    (get_all_countries pTimeout).1 = ApiReturn.failure "timeout"
  ∧ (get_all_countries pTimeout).2.log = [Endpoint.allCountries] := by
  have h := (provider_client_spec Nat pTimeout "US" "telegram" "1" "2").1
  exact ⟨h.2.2.2.1 "timeout" rfl, (h.2.1).trans (by decide)⟩
